import Mathlib

/-!
# A verification development for the mcp-go protocol stack

Shallow embedding of parts of the mcp-go repository (a Go implementation of
the Model Context Protocol): the stdio client transport (`client/transport/stdio.go`),
and spec-level models of components whose implementation files are not part of
the source tree under scrutiny (the Streamable HTTP server, the client
initialization logic, the `Meta` codec, the tool codec, the sampling queue and
the stdio server configuration).  Stateful Go code is modelled by explicit
state passing; JSON decoding outcomes are modelled by explicit case splits;
fallible code returns `Except`.
-/

set_option maxHeartbeats 1000000

/-! ## Request ids (package mcp)

`mcp.RequestId` is a tagged variant over `int64` and `string`; a nil value
marks a notification.  The concrete file `mcp/types.go` is not in the source
tree, so the id and its string key are modelled from the spec ("Polymorphic
request id. Modelled as a tagged variant \x7bint64, string\x7d. Equality is
variant-sensitive. Encoding emits the original JSON type."). -/

/-- Modelled from the spec: `mcp.RequestId`, a tagged variant over `int64`
and `string`; the `nil` case marks a message as a notification
(`mcp/types.go` is absent from the source tree). -/
inductive RequestId where
  | nil
  | num (n : Int)
  | str (s : String)
deriving DecidableEq, Repr

/-- `RequestId.IsNil` from the source: a nil id marks a notification. -/
def RequestId.IsNil : RequestId → Bool
  | .nil => true
  | _ => false

/-- Modelled from the spec: `RequestId.String()`, the variant-sensitive string
key used by the stdio transport for its pending-call table; the two non-nil
variants are kept disjoint by a tag ("Equality and hashing treat the two
variants as disjoint"). -/
def RequestId.key : RequestId → String
  | .nil => "<nil>"
  | .num n => "int64:" ++ toString n
  | .str s => "string:" ++ s

/-- `transport.JSONRPCResponse`: jsonrpc header, polymorphic id, and raw
result or error payloads (raw JSON modelled as strings). -/
structure JSONRPCResponse where
  JSONRPC : String
  ID : RequestId
  Result : Option String
  Error : Option String
deriving DecidableEq, Repr

/-! ## Association-list map helpers

`Stdio.responses` is a Go map from id keys to response channels; it is
embedded as an association list with map (overwrite/delete) semantics. -/

/-- Lookup of a key in the pending-call table (Go map read). -/
def lookupKey : List (String × Nat) → String → Option Nat
  | [], _ => none
  | (k, v) :: rest, key => if k = key then some v else lookupKey rest key

/-- Removal of a key from the pending-call table (Go `delete`). -/
def eraseKey : List (String × Nat) → String → List (String × Nat)
  | [], _ => []
  | (k, v) :: rest, key =>
      if k = key then eraseKey rest key else (k, v) :: eraseKey rest key

/-- Insertion with overwrite (Go map assignment). -/
def setKey (l : List (String × Nat)) (key : String) (v : Nat) : List (String × Nat) :=
  (key, v) :: eraseKey l key

theorem lookupKey_eraseKey_self (l : List (String × Nat)) (k : String) :
    lookupKey (eraseKey l k) k = none := by
  induction l with
  | nil => rfl
  | cons hd tl ih =>
      obtain ⟨k', v⟩ := hd
      by_cases h : k' = k <;> simp [eraseKey, lookupKey, h, ih]

theorem lookupKey_eraseKey_other (l : List (String × Nat)) (k k' : String)
    (h : k' ≠ k) : lookupKey (eraseKey l k) k' = lookupKey l k' := by
  induction l with
  | nil => rfl
  | cons hd tl ih =>
      obtain ⟨k0, v⟩ := hd
      simp only [eraseKey]
      by_cases h0 : k0 = k
      · subst h0
        simp [lookupKey, ih, Ne.symm h]
      · simp [lookupKey, h0, ih]

/-! ## The stdio client transport (`client/transport/stdio.go`)

The mutable fields of `transport.Stdio` that the pending-call claims depend
on: `responses` (map from id key to the one-shot response channel, channels
identified by tokens) and the `done` channel (closed flag). -/

/-- State of the `transport.Stdio` client relevant to request correlation:
the `responses` map (id key ↦ registered response channel) and whether the
`done` channel has been closed. -/
structure Stdio where
  responses : List (String × Nat)
  done : Bool
deriving DecidableEq, Repr

/-- One line read from the subprocess stdout, split by the outcome of
`json.Unmarshal` into a `JSONRPCResponse` in `readResponses`: either the line
is not valid JSON, or it decodes to a message. -/
inductive Line where
  | invalid
  | msg (r : JSONRPCResponse)
deriving DecidableEq, Repr

/-- The externally visible effect of `readResponses` handling one line. The
notification branch (nil id) re-decodes the line and invokes the handler;
it never touches the `responses` table, so it is folded into one case. -/
inductive ReadEffect where
  | droppedMalformed
  | handledNotification
  | delivered (ch : Nat) (r : JSONRPCResponse)
  | droppedUnmatched
deriving DecidableEq, Repr

/-- The body of the read loop `Stdio.readResponses` (stdio.go lines 227-258)
for a single line: malformed JSON is skipped; a nil id goes down the
notification path; otherwise the id key is looked up in `responses` and, on a
hit, the message is sent to the registered channel and the entry deleted; on
a miss the message is dropped. -/
def Stdio.readLine (c : Stdio) (l : Line) : Stdio × ReadEffect :=
  match l with
  | .invalid => (c, .droppedMalformed)
  | .msg r =>
      if r.ID.IsNil then
        (c, .handledNotification)
      else
        match lookupKey c.responses r.ID.key with
        | some ch =>
            ({ c with responses := eraseKey c.responses r.ID.key }, .delivered ch r)
        | none => (c, .droppedUnmatched)

/-- Events of the stdio client life cycle, one per code path that touches the
pending-call table:
* `register k ch` — `SendRequest` registers a response channel (lines 286-289);
* `writeFail k` — the stdin write failed, `deleteResponseChan` runs (297-300);
* `ctxDone k` — the caller's context fired in the select (303-305);
* `readerLine l` — `readResponses` handles one stdout line (only while the
  `done` channel is open, line 216);
* `closeClient` — `Close` closes `done` and the pipes (171-192); it does not
  touch `responses`. -/
inductive ClientEv where
  | register (k : String) (ch : Nat)
  | writeFail (k : String)
  | ctxDone (k : String)
  | readerLine (l : Line)
  | closeClient
deriving DecidableEq, Repr

/-- A run of the stdio client: the transport state plus the id keys whose
waiters have been resolved, by a delivered response or by an error return
from `SendRequest` (write failure or context cancellation). -/
structure StdioRun where
  transport : Stdio
  resolvedByResponse : List String
  resolvedByError : List String
deriving DecidableEq, Repr

/-- One step of the stdio client, read off `SendRequest`, `readResponses` and
`Close` in stdio.go.  `Close` only closes the `done` channel and the pipes;
`SendRequest`'s select waits on the caller's context and on the response
channel only, so no step resolves a waiter at `closeClient`. -/
def stepClient (s : StdioRun) (e : ClientEv) : StdioRun :=
  match e with
  | .register k ch =>
      { s with transport := { s.transport with responses := setKey s.transport.responses k ch } }
  | .writeFail k =>
      { s with
        transport := { s.transport with responses := eraseKey s.transport.responses k }
        resolvedByError := k :: s.resolvedByError }
  | .ctxDone k =>
      { s with
        transport := { s.transport with responses := eraseKey s.transport.responses k }
        resolvedByError := k :: s.resolvedByError }
  | .readerLine l =>
      if s.transport.done then s
      else
        match s.transport.readLine l with
        | (t, .delivered _ r) =>
            { s with transport := t, resolvedByResponse := r.ID.key :: s.resolvedByResponse }
        | (t, _) => { s with transport := t }
  | .closeClient =>
      { s with transport := { s.transport with done := true } }

/-- Folding a list of events over the initial client state. -/
def runClient (s : StdioRun) (es : List ClientEv) : StdioRun :=
  es.foldl stepClient s

/-- The empty initial client state (`NewStdioWithOptions`): no registered
response channels, `done` open, nothing resolved. -/
def initStdioRun : StdioRun :=
  { transport := { responses := [], done := false }
    resolvedByResponse := []
    resolvedByError := [] }

/-- C10: the read loop of the stdio client transport is total over arbitrary
input lines: a line that is not valid JSON is skipped, a well-formed response
whose id matches no registered waiter is silently discarded, in both cases the
pending-call table is unchanged, and an entry is removed only when a response
with its exact id key is delivered to the registered channel (after which the
entry is gone). -/
theorem stdio_readResponses_total (c : Stdio) (l : Line) (k : String) :
    Stdio.readLine c Line.invalid = (c, ReadEffect.droppedMalformed)
    ∧ (∀ r : JSONRPCResponse, l = Line.msg r → r.ID.IsNil = false →
        lookupKey c.responses r.ID.key = none →
        Stdio.readLine c l = (c, ReadEffect.droppedUnmatched))
    ∧ (lookupKey (Stdio.readLine c l).1.responses k ≠ lookupKey c.responses k →
        ∃ r ch, l = Line.msg r ∧ r.ID.key = k
          ∧ (Stdio.readLine c l).2 = ReadEffect.delivered ch r
          ∧ lookupKey (Stdio.readLine c l).1.responses k = none) := by
  refine ⟨rfl, ?_, ?_⟩
  · intro r hl hnil hlook
    subst hl
    simp [Stdio.readLine, hnil, hlook]
  · intro hne
    cases l with
    | invalid => exact absurd rfl hne
    | msg r =>
      cases hnil : r.ID.IsNil with
      | true =>
          rw [show Stdio.readLine c (Line.msg r) = (c, ReadEffect.handledNotification) by
            simp [Stdio.readLine, hnil]] at hne
          exact absurd rfl hne
      | false =>
          cases hlook : lookupKey c.responses r.ID.key with
          | none =>
              rw [show Stdio.readLine c (Line.msg r) = (c, ReadEffect.droppedUnmatched) by
                simp [Stdio.readLine, hnil, hlook]] at hne
              exact absurd rfl hne
          | some ch =>
              have hr : Stdio.readLine c (Line.msg r)
                  = ({ c with responses := eraseKey c.responses r.ID.key },
                     ReadEffect.delivered ch r) := by
                simp [Stdio.readLine, hnil, hlook]
              by_cases hk : k = r.ID.key
              · subst hk
                exact ⟨r, ch, rfl, rfl, by rw [hr], by
                  rw [hr]; exact lookupKey_eraseKey_self _ _⟩
              · rw [hr] at hne
                exact absurd (lookupKey_eraseKey_other c.responses r.ID.key k hk) hne

/-- A transport state with one registered waiter, used to evaluate the read
loop on an unmatched response. -/
def c10State : Stdio := { responses := [("int64:1", 7)], done := false }

/-- A well-formed response whose id (2) matches no registered waiter in
`c10State`. -/
def c10Resp : JSONRPCResponse :=
  { JSONRPC := "2.0", ID := RequestId.num 2, Result := some "pong", Error := none }

theorem stdio_readResponses_total_w :
    Stdio.readLine c10State (Line.msg c10Resp) = (c10State, ReadEffect.droppedUnmatched) :=
  (stdio_readResponses_total c10State (Line.msg c10Resp) "int64:1").2.1 c10Resp rfl
    (by decide) (by decide)

/-- The event trace in which `SendRequest` registers a waiter for request id
1, `Close` is called, and the matching response line arrives afterwards (the
reader has already exited because `done` is closed). -/
def c4Events : List ClientEv :=
  [ClientEv.register (RequestId.num 1).key 0,
   ClientEv.closeClient,
   ClientEv.readerLine
     (Line.msg { JSONRPC := "2.0", ID := RequestId.num 1, Result := some "ok", Error := none })]

/-- C4: evaluation of the stdio client at the failing input.  A request
waiter registered before `Close` is orphaned: after `Close` its pending-call
entry is still in the `responses` map and the waiter is resolved neither by a
response nor by an error — `Close` only closes the `done` channel (stopping
the reader, so even a matching response line no longer reaches the waiter),
and `SendRequest`'s select waits only on the caller's context and the
response channel.  This refutes the claim that no waiter remains orphaned
after transport close. -/
theorem stdio_close_orphans_pending_waiter :
    (runClient initStdioRun c4Events).transport.done = true
    ∧ lookupKey (runClient initStdioRun c4Events).transport.responses
        (RequestId.num 1).key = some 0
    ∧ (runClient initStdioRun c4Events).resolvedByResponse = []
    ∧ (runClient initStdioRun c4Events).resolvedByError = [] := by
  decide

/-! ## The Streamable HTTP server (`server/streamable_http.go`)

The implementation file is absent from the source tree (only its tests are
present), so the POST handling is modelled from the spec, sections 4.6 and 6:
a POST carrying a single JSON-RPC request is answered either with a plain
JSON body (no notifications emitted by the handler) or with an SSE stream
(notifications first, in emission order, then the final response); a POST
carrying a notification is answered 202; in stateful mode `initialize` mints
a session id returned in the `Mcp-Session-Id` header and every other request
needs a known session id, otherwise 400; in stateless mode no id is minted
and a client-supplied id is ignored. -/

/-- A POST request body after decoding: malformed JSON, a single JSON-RPC
request, or a JSON-RPC notification (no id, so no reply expected). -/
inductive PostBody where
  | invalidJson
  | request (id : RequestId) (method : String)
  | notificationMsg (method : String)
deriving DecidableEq, Repr

/-- What the handler did for one request: the notifications it emitted (in
emission order, method and params payload) and the final result payload. -/
structure HandlerRun where
  notifications : List (String × String)
  result : String
deriving DecidableEq, Repr

/-- One event of a `text/event-stream` response body: a `message` event
carrying a notification, or the final `message` event carrying the
JSON-RPC response. -/
inductive SSEEvent where
  | messageNotification (method : String) (params : String)
  | messageResponse (id : RequestId) (result : String)
deriving DecidableEq, Repr

/-- The body of an HTTP reply. -/
inductive ReplyBody where
  | empty
  | jsonBody (id : RequestId) (result : String)
  | sseBody (events : List SSEEvent)
  | errorBody (msg : String)
deriving DecidableEq, Repr

/-- An HTTP reply of the Streamable HTTP server: status code, content type,
the `Mcp-Session-Id` response header, and the body. -/
structure PostReply where
  status : Nat
  contentType : Option String
  sessionHeader : Option String
  body : ReplyBody
deriving DecidableEq, Repr

/-- Configuration and session registry of the Streamable HTTP server. -/
structure HTTPServerState where
  stateless : Bool
  activeSessions : List String
deriving DecidableEq, Repr

/-- Modelled from the spec: session ids are minted on `initialize` as a
"mcp-session-" stem followed by a fresh UUID (`server/streamable_http.go`
is absent). -/
def mintSessionId (uuid : String) : String := "mcp-session-" ++ uuid

/-- Modelled from the spec: the reply to a POST carrying a single JSON-RPC
request, once session checks passed.  Mode (i): the handler emitted no
notifications — 200 with an `application/json` body carrying the response.
Mode (ii): the handler emitted notifications — 200 with a
`text/event-stream` body carrying one `message` event per notification, in
emission order, followed by the final `message` event carrying the
response. -/
def respondToRequest (id : RequestId) (run : HandlerRun)
    (sessionHeader : Option String) : PostReply :=
  if run.notifications.isEmpty then
    { status := 200
      contentType := some "application/json"
      sessionHeader := sessionHeader
      body := .jsonBody id run.result }
  else
    { status := 200
      contentType := some "text/event-stream"
      sessionHeader := sessionHeader
      body := .sseBody
        ((run.notifications.map fun p => SSEEvent.messageNotification p.1 p.2)
          ++ [SSEEvent.messageResponse id run.result]) }

/-- A 400 Bad Request reply. -/
def badRequestReply (msg : String) : PostReply :=
  { status := 400, contentType := none, sessionHeader := none, body := .errorBody msg }

/-- Modelled from the spec: POST dispatch of the Streamable HTTP server
(`server/streamable_http.go` is absent).  Malformed JSON is answered 400; a
notification is answered 202 with an empty body; a request is answered by
`respondToRequest`.  In stateful mode, `initialize` mints a session id
(returned in the `Mcp-Session-Id` header and registered), and any other
message needs a known `Mcp-Session-Id` header, otherwise 400.  In stateless
mode no id is minted and the client-supplied header is never consulted. -/
def handlePost (st : HTTPServerState) (uuid : String)
    (headerSessionId : Option String) (body : PostBody) (run : HandlerRun) :
    PostReply × HTTPServerState :=
  match body with
  | .invalidJson => (badRequestReply "not valid json", st)
  | .notificationMsg _ =>
      if st.stateless then
        ({ status := 202, contentType := none, sessionHeader := none, body := .empty }, st)
      else
        match headerSessionId with
        | none => (badRequestReply "missing session id", st)
        | some sid =>
            if sid ∈ st.activeSessions then
              ({ status := 202, contentType := none, sessionHeader := none, body := .empty }, st)
            else (badRequestReply "unknown session id", st)
  | .request id method =>
      if st.stateless then
        (respondToRequest id run none, st)
      else if method = "initialize" then
        let sid := mintSessionId uuid
        (respondToRequest id run (some sid),
         { st with activeSessions := sid :: st.activeSessions })
      else
        match headerSessionId with
        | none => (badRequestReply "missing session id", st)
        | some sid =>
            if sid ∈ st.activeSessions then
              (respondToRequest id run none, st)
            else (badRequestReply "unknown session id", st)

/-- C1: for a Streamable HTTP POST carrying a single JSON-RPC request that
reaches the handler (stateful mode, known session, not `initialize`), the
server replies 200 with `application/json` exactly when the handler emitted
no notifications and 200 with `text/event-stream` exactly when it did; in
the streaming case the body is the emitted notifications in emission order
followed by the final event carrying the JSON-RPC response. -/
theorem streamable_post_response_modes (st : HTTPServerState) (uuid sid : String)
    (id : RequestId) (method : String) (run : HandlerRun)
    (hss : st.stateless = false) (hmem : sid ∈ st.activeSessions)
    (hmethod : method ≠ "initialize") :
    (handlePost st uuid (some sid) (PostBody.request id method) run).1.status = 200
    ∧ ((handlePost st uuid (some sid) (PostBody.request id method) run).1.contentType
        = some "application/json" ↔ run.notifications = [])
    ∧ ((handlePost st uuid (some sid) (PostBody.request id method) run).1.contentType
        = some "text/event-stream" ↔ run.notifications ≠ [])
    ∧ (run.notifications ≠ [] →
        (handlePost st uuid (some sid) (PostBody.request id method) run).1.body
          = ReplyBody.sseBody
              ((run.notifications.map fun p => SSEEvent.messageNotification p.1 p.2)
                ++ [SSEEvent.messageResponse id run.result])) := by
  have h1 : handlePost st uuid (some sid) (PostBody.request id method) run
      = (respondToRequest id run none, st) := by
    simp [handlePost, hss, hmethod, hmem]
  rw [h1]
  obtain ⟨notifs, res⟩ := run
  cases notifs with
  | nil => simp [respondToRequest]
  | cons a as => simp [respondToRequest]

/-- Witness for C1: a `tools/call` on a known session whose handler emitted
one notification is answered 200 + `text/event-stream`, the notification
strictly before the final response event. -/
theorem streamable_post_response_modes_w :
    (handlePost { stateless := false, activeSessions := ["s1"] } "u" (some "s1")
        (PostBody.request (RequestId.num 123) "tools/call")
        { notifications := [("test/notification", "v0")], result := "done" }).1.status = 200
    ∧ (handlePost { stateless := false, activeSessions := ["s1"] } "u" (some "s1")
        (PostBody.request (RequestId.num 123) "tools/call")
        { notifications := [("test/notification", "v0")], result := "done" }).1.contentType
      = some "text/event-stream"
    ∧ (handlePost { stateless := false, activeSessions := ["s1"] } "u" (some "s1")
        (PostBody.request (RequestId.num 123) "tools/call")
        { notifications := [("test/notification", "v0")], result := "done" }).1.body
      = ReplyBody.sseBody
          [SSEEvent.messageNotification "test/notification" "v0",
           SSEEvent.messageResponse (RequestId.num 123) "done"] :=
  have h := streamable_post_response_modes
    { stateless := false, activeSessions := ["s1"] } "u" "s1" (RequestId.num 123)
    "tools/call" { notifications := [("test/notification", "v0")], result := "done" }
    rfl (by decide) (by decide)
  ⟨h.1, h.2.2.1.mpr (by decide), h.2.2.2 (by decide)⟩

/-- C2: in stateful mode, `initialize` mints a session id that is returned in
the `Mcp-Session-Id` response header (non-empty) and registered; any other
request whose `Mcp-Session-Id` header is missing or names an unknown session
is answered 400. -/
theorem streamable_stateful_session_checks (st : HTTPServerState)
    (uuid sid : String) (hdr : Option String) (id : RequestId) (method : String)
    (run : HandlerRun) (hss : st.stateless = false) :
    ((handlePost st uuid hdr (PostBody.request id "initialize") run).1.sessionHeader
        = some (mintSessionId uuid)
      ∧ mintSessionId uuid ≠ ""
      ∧ mintSessionId uuid
          ∈ ((handlePost st uuid hdr (PostBody.request id "initialize") run).2).activeSessions)
    ∧ (method ≠ "initialize" →
        (handlePost st uuid none (PostBody.request id method) run).1.status = 400)
    ∧ (method ≠ "initialize" → sid ∉ st.activeSessions →
        (handlePost st uuid (some sid) (PostBody.request id method) run).1.status = 400) := by
  refine ⟨⟨?_, ?_, ?_⟩, ?_, ?_⟩
  · simp only [handlePost, hss, Bool.false_eq_true, if_false, if_pos rfl]
    obtain ⟨notifs, res⟩ := run
    cases notifs with
    | nil => simp [respondToRequest]
    | cons a as => simp [respondToRequest]
  · intro h
    have h2 := congrArg String.length h
    rw [mintSessionId, String.length_append] at h2
    have h3 : ("mcp-session-" : String).length = 12 := by decide
    have h4 : ("" : String).length = 0 := by decide
    omega
  · simp [handlePost, hss]
  · intro hm
    simp [handlePost, hss, hm, badRequestReply]
  · intro hm hc
    simp [handlePost, hss, hm, hc, badRequestReply]

/-- Witness for C2: a concrete `initialize` mints and returns a session id,
and a `ping` with a missing or unknown session id is answered 400. -/
theorem streamable_stateful_session_checks_w :
    (handlePost { stateless := false, activeSessions := [] } "u1" none
        (PostBody.request (RequestId.num 1) "initialize")
        { notifications := [], result := "ok" }).1.sessionHeader
      = some (mintSessionId "u1")
    ∧ (handlePost { stateless := false, activeSessions := ["mcp-session-u1"] } "u2" none
        (PostBody.request (RequestId.num 123) "ping")
        { notifications := [], result := "ok" }).1.status = 400
    ∧ (handlePost { stateless := false, activeSessions := ["mcp-session-u1"] } "u2"
        (some "dummy-session-id") (PostBody.request (RequestId.num 123) "ping")
        { notifications := [], result := "ok" }).1.status = 400 :=
  ⟨(streamable_stateful_session_checks { stateless := false, activeSessions := [] }
      "u1" "x" none (RequestId.num 1) "ping"
      { notifications := [], result := "ok" } rfl).1.1,
   (streamable_stateful_session_checks
      { stateless := false, activeSessions := ["mcp-session-u1"] } "u2" "x" none
      (RequestId.num 123) "ping" { notifications := [], result := "ok" } rfl).2.1
    (by decide),
   (streamable_stateful_session_checks
      { stateless := false, activeSessions := ["mcp-session-u1"] } "u2"
      "dummy-session-id" none (RequestId.num 123) "ping"
      { notifications := [], result := "ok" } rfl).2.2
    (by decide) (by decide)⟩

/-- C6: in stateless mode no session id is minted (the `Mcp-Session-Id`
response header stays empty), the session registry is untouched, the reply
to a request is 200, and the client-supplied `Mcp-Session-Id` header is
never consulted: the reply is the same as with no header at all, for every
method. -/
theorem streamable_stateless_ignores_session (st : HTTPServerState)
    (uuid : String) (hdr : Option String) (body : PostBody) (run : HandlerRun)
    (id : RequestId) (method : String) (hss : st.stateless = true) :
    handlePost st uuid hdr body run = handlePost st uuid none body run
    ∧ (handlePost st uuid hdr (PostBody.request id method) run).1.sessionHeader = none
    ∧ (handlePost st uuid hdr (PostBody.request id method) run).1.status = 200
    ∧ (handlePost st uuid hdr (PostBody.request id method) run).2 = st := by
  refine ⟨?_, ?_, ?_, ?_⟩
  · cases body with
    | invalidJson => rfl
    | notificationMsg m => simp [handlePost, hss]
    | request i m => simp [handlePost, hss]
  · simp only [handlePost, hss, if_pos rfl]
    obtain ⟨notifs, res⟩ := run
    cases notifs with
    | nil => simp [respondToRequest]
    | cons a as => simp [respondToRequest]
  · simp only [handlePost, hss, if_pos rfl]
    obtain ⟨notifs, res⟩ := run
    cases notifs with
    | nil => simp [respondToRequest]
    | cons a as => simp [respondToRequest]
  · simp [handlePost, hss]

/-- Witness for C6: a `tools/list` carrying a client-supplied session id in
stateless mode is processed normally (200, no minted id, same reply as
without the header). -/
theorem streamable_stateless_ignores_session_w :
    handlePost { stateless := true, activeSessions := [] } "u"
        (some "mcp-session-2c44d701") (PostBody.request (RequestId.num 1) "tools/list")
        { notifications := [], result := "toollist" }
      = handlePost { stateless := true, activeSessions := [] } "u" none
        (PostBody.request (RequestId.num 1) "tools/list")
        { notifications := [], result := "toollist" }
    ∧ (handlePost { stateless := true, activeSessions := [] } "u"
        (some "mcp-session-2c44d701") (PostBody.request (RequestId.num 1) "tools/list")
        { notifications := [], result := "toollist" }).1.sessionHeader = none
    ∧ (handlePost { stateless := true, activeSessions := [] } "u"
        (some "mcp-session-2c44d701") (PostBody.request (RequestId.num 1) "tools/list")
        { notifications := [], result := "toollist" }).1.status = 200 :=
  have h := streamable_stateless_ignores_session
    { stateless := true, activeSessions := [] } "u" (some "mcp-session-2c44d701")
    (PostBody.request (RequestId.num 1) "tools/list")
    { notifications := [], result := "toollist" } (RequestId.num 1) "tools/list" rfl
  ⟨h.1, h.2.1, h.2.2.1⟩

/-! ## Client initialization and protocol version negotiation
(`client/client.go`, `mcp/types.go`)

The implementation files are absent from the source tree (only
`client/protocol_negotiation_test.go` is present), so the version validation
performed by `Client.Initialize` is modelled from the spec: "validates the
server's returned protocol version against the supported set and fails with a
distinguishable `UnsupportedProtocolVersion` error otherwise; notifies the
transport of the negotiated version"; the supported set is
\x7b2024-11-05, 2025-03-26, 2025-06-18\x7d. -/

/-- Modelled from the spec: `mcp.LATEST_PROTOCOL_VERSION`. -/
def LATEST_PROTOCOL_VERSION : String := "2025-06-18"

/-- Modelled from the spec: the supported protocol version set. -/
def ValidProtocolVersions : List String :=
  ["2024-11-05", "2025-03-26", LATEST_PROTOCOL_VERSION]

/-- A client-side error: the distinguishable unsupported-protocol-version
error (`mcp.UnsupportedProtocolVersionError`) or any other error. -/
inductive ClientErr where
  | unsupportedProtocolVersion (version : String)
  | other (msg : String)
deriving DecidableEq, Repr

/-- Modelled from the spec: `mcp.IsUnsupportedProtocolVersion` recognizes the
dedicated error kind. -/
def IsUnsupportedProtocolVersion : ClientErr → Bool
  | .unsupportedProtocolVersion _ => true
  | .other _ => false

/-- The client state `Initialize` produces on success: the stored negotiated
version, and the version passed to the transport's `SetProtocolVersion`
hook. -/
structure InitOutcome where
  protocolVersion : String
  transportSetVersion : Option String
deriving DecidableEq, Repr

/-- Modelled from the spec: the protocol-version handling of
`Client.Initialize` (`client/client.go` is absent).  The version returned by
the server is validated against the supported set; a member is stored and
handed to the transport's `SetProtocolVersion` hook, a non-member fails with
the dedicated error carrying that version. -/
def clientInitializeOutcome (serverVersion : String) :
    Except ClientErr InitOutcome :=
  if serverVersion ∈ ValidProtocolVersions then
    .ok { protocolVersion := serverVersion, transportSetVersion := some serverVersion }
  else
    .error (.unsupportedProtocolVersion serverVersion)

/-- C3: client `Initialize` succeeds on every version of the supported set
\x7b2024-11-05, 2025-03-26, 2025-06-18\x7d, storing it and notifying the
transport via `SetProtocolVersion`; every other returned version fails with
an error recognizable as `UnsupportedProtocolVersion`. -/
theorem client_init_version_negotiation (v : String) :
    (v ∈ ValidProtocolVersions →
      clientInitializeOutcome v
        = .ok { protocolVersion := v, transportSetVersion := some v })
    ∧ (v ∉ ValidProtocolVersions →
      clientInitializeOutcome v = .error (.unsupportedProtocolVersion v))
    ∧ (∀ e, clientInitializeOutcome v = .error e →
        IsUnsupportedProtocolVersion e = true)
    ∧ ValidProtocolVersions = ["2024-11-05", "2025-03-26", "2025-06-18"] := by
  refine ⟨?_, ?_, ?_, rfl⟩
  · intro h
    simp [clientInitializeOutcome, h]
  · intro h
    simp [clientInitializeOutcome, h]
  · intro e he
    by_cases h : v ∈ ValidProtocolVersions
    · simp [clientInitializeOutcome, h] at he
    · simp [clientInitializeOutcome, h] at he
      rw [← he]
      rfl

/-- Witness for C3: `2025-03-26` is accepted and handed to the transport;
`2023-01-01` is rejected with the dedicated error. -/
theorem client_init_version_negotiation_w :
    clientInitializeOutcome "2025-03-26"
      = .ok { protocolVersion := "2025-03-26", transportSetVersion := some "2025-03-26" }
    ∧ clientInitializeOutcome "2023-01-01"
      = .error (.unsupportedProtocolVersion "2023-01-01")
    ∧ IsUnsupportedProtocolVersion
        (ClientErr.unsupportedProtocolVersion "2023-01-01") = true :=
  ⟨(client_init_version_negotiation "2025-03-26").1 (by decide),
   (client_init_version_negotiation "2023-01-01").2.1 (by decide),
   (client_init_version_negotiation "2023-01-01").2.2.1
     (ClientErr.unsupportedProtocolVersion "2023-01-01")
     ((client_init_version_negotiation "2023-01-01").2.1 (by decide))⟩

/-! ## Server-initiated sampling (`server/sampling.go`,
`server/streamable_http.go` session)

The implementation files are absent from the source tree (only
`server/sampling_test.go` and `server/streamable_http_sampling_test.go` are
present), so the flow-control behaviour is modelled from the spec:
"Servers without an active session fail with `ErrNoActiveSession`"; "The
sampling-request queue is bounded; enqueueing when full returns
\"sampling queue is full\"". -/

/-- An entry of the per-session bounded sampling-request queue
(`samplingRequestItem`). -/
structure SamplingRequestItem where
  requestID : Int
deriving DecidableEq, Repr

/-- The sampling-relevant state of a Streamable HTTP session: the buffered
sampling-request channel contents and its capacity. -/
structure StreamableHttpSession where
  samplingRequestChan : List SamplingRequestItem
  samplingChanCap : Nat
deriving DecidableEq, Repr

/-- Modelled from the spec: `ErrNoActiveSession`. -/
def ErrNoActiveSession : String := "no active session"

/-- Modelled from the spec: the queue-overflow error message. -/
def errSamplingQueueFull : String := "sampling queue is full"

/-- Modelled from the spec: `streamableHttpSession.RequestSampling` enqueues
into the bounded sampling-request channel, failing fast when the channel is
at capacity (`server/streamable_http.go` is absent). -/
def StreamableHttpSession.requestSampling (s : StreamableHttpSession)
    (item : SamplingRequestItem) : Except String StreamableHttpSession :=
  if s.samplingRequestChan.length < s.samplingChanCap then
    .ok { s with samplingRequestChan := s.samplingRequestChan ++ [item] }
  else
    .error errSamplingQueueFull

/-- Modelled from the spec: `MCPServer.RequestSampling` requires an active
session from the context and otherwise fails with `ErrNoActiveSession`
(`server/sampling.go` is absent). -/
def serverRequestSampling (activeSession : Option StreamableHttpSession)
    (item : SamplingRequestItem) : Except String StreamableHttpSession :=
  match activeSession with
  | none => .error ErrNoActiveSession
  | some s => s.requestSampling item

/-- C5: `RequestSampling` fails fast under flow control: with no active
session it returns exactly the error "no active session", and on a session
whose bounded sampling queue is at capacity it returns an error whose
message contains "queue is full". -/
theorem request_sampling_flow_control (s : StreamableHttpSession)
    (item : SamplingRequestItem)
    (hfull : s.samplingChanCap ≤ s.samplingRequestChan.length) :
    serverRequestSampling none item = .error "no active session"
    ∧ serverRequestSampling (some s) item = .error errSamplingQueueFull
    ∧ ∃ pre post, errSamplingQueueFull = pre ++ "queue is full" ++ post := by
  refine ⟨rfl, ?_, "sampling ", "", rfl⟩
  simp [serverRequestSampling, StreamableHttpSession.requestSampling,
    Nat.not_lt.mpr hfull]

/-- Witness for C5: a session whose queue (capacity 1) already holds one
request rejects the next enqueue with the queue-full error. -/
theorem request_sampling_flow_control_w :
    serverRequestSampling none { requestID := 2 } = .error "no active session"
    ∧ serverRequestSampling
        (some { samplingRequestChan := [{ requestID := 0 }], samplingChanCap := 1 })
        { requestID := 2 } = .error errSamplingQueueFull :=
  have h := request_sampling_flow_control
    { samplingRequestChan := [{ requestID := 0 }], samplingChanCap := 1 }
    { requestID := 2 } (by decide)
  ⟨h.1, h.2.1⟩

/-! ## StdIO server configuration (`server/stdio.go`)

The implementation file is absent from the source tree (only its tests are
present), so the option clamping is modelled from the spec: "A worker pool
(bounded, configurable, clamped to [1, 100]) drains the channel";
"Configuration floors: worker pool size default 5, queue size default 100,
queue size clamped to [1, 10000]"; a non-positive requested value keeps the
default (the tests expect 0 ↦ 5 and -10 ↦ 100). -/

/-- Modelled from the spec: the effective worker pool size produced by
`WithWorkerPoolSize` (`server/stdio.go` is absent): non-positive requests
keep the default 5, requests above 100 are clamped to 100. -/
def withWorkerPoolSize (requested : Int) : Int :=
  if requested ≤ 0 then 5
  else if requested > 100 then 100
  else requested

/-- Modelled from the spec: the effective queue size produced by
`WithQueueSize` (`server/stdio.go` is absent): non-positive requests keep
the default 100, requests above 10000 are clamped to 10000. -/
def withQueueSize (requested : Int) : Int :=
  if requested ≤ 0 then 100
  else if requested > 10000 then 10000
  else requested

/-- C9: stdio server configuration is clamped: every requested worker pool
size yields an effective size in [1, 100] (default 5 on non-positive input)
and every requested queue size yields an effective size in [1, 10000]
(default 100 on non-positive input); in particular requests above the
maxima yield exactly the maxima, and in-range requests are respected. -/
theorem stdio_config_bounds (n : Int) :
    (1 ≤ withWorkerPoolSize n ∧ withWorkerPoolSize n ≤ 100)
    ∧ (1 ≤ withQueueSize n ∧ withQueueSize n ≤ 10000)
    ∧ (n > 100 → withWorkerPoolSize n = 100)
    ∧ (n > 10000 → withQueueSize n = 10000)
    ∧ (1 ≤ n → n ≤ 100 → withWorkerPoolSize n = n)
    ∧ (1 ≤ n → n ≤ 10000 → withQueueSize n = n)
    ∧ withWorkerPoolSize 0 = 5 ∧ withQueueSize 0 = 100
    ∧ withWorkerPoolSize (-10) = 5 ∧ withQueueSize (-10) = 100 := by
  unfold withWorkerPoolSize withQueueSize
  refine ⟨⟨?_, ?_⟩, ⟨?_, ?_⟩, ?_, ?_, ?_, ?_, by decide, by decide, by decide, by decide⟩
    <;> split_ifs <;> omega

/-- Witness for C9: a requested worker pool size of 150 yields 100 and a
requested queue size of 20000 yields 10000; a requested size of 50 is
respected. -/
theorem stdio_config_bounds_w :
    withWorkerPoolSize 150 = 100 ∧ withQueueSize 20000 = 10000
    ∧ withWorkerPoolSize 50 = 50 :=
  ⟨(stdio_config_bounds 150).2.2.1 (by decide),
   (stdio_config_bounds 20000).2.2.2.1 (by decide),
   (stdio_config_bounds 50).2.2.2.2.1 (by decide) (by decide)⟩

/-! ## The tool codec (`mcp/tools.go`)

The implementation file is absent from the source tree (only the test
`TestToolWithBothSchemasError` is present), so the encoding is modelled from
the spec: "`inputSchema` is either built via the schema DSL or supplied as
raw JSON; the codec fails with a dedicated error if both are populated." -/

/-- A DSL-built input schema (`mcp.ToolInputSchema`): the schema type and
its declared properties. -/
structure ToolInputSchema where
  type : String
  properties : List (String × String)
deriving DecidableEq, Repr

/-- `mcp.Tool`: name, description, the DSL-built input schema when one was
populated, and the raw JSON input schema when one was supplied. -/
structure Tool where
  Name : String
  Description : String
  InputSchema : Option ToolInputSchema
  RawInputSchema : Option String
deriving DecidableEq, Repr

/-- Modelled from the spec: the dedicated schema-conflict error
(`errToolSchemaConflict` in `mcp/tools.go`, which is absent). -/
def errToolSchemaConflict : String :=
  "both InputSchema and RawInputSchema are set"

/-- The encoded input schema on the wire: either the DSL schema object or
the raw JSON verbatim. -/
inductive EncodedSchema where
  | dsl (s : ToolInputSchema)
  | raw (j : String)
deriving DecidableEq, Repr

/-- The encoded tool object. -/
structure EncodedTool where
  name : String
  description : String
  inputSchema : EncodedSchema
deriving DecidableEq, Repr

/-- Modelled from the spec: `Tool.MarshalJSON` (`mcp/tools.go` is absent).
When a raw schema is supplied it is used verbatim, unless a DSL schema was
also populated, in which case encoding fails with the dedicated
schema-conflict error; with no raw schema the DSL schema (or the empty
default) is encoded. -/
def marshalTool (t : Tool) : Except String EncodedTool :=
  match t.RawInputSchema with
  | some raw =>
      match t.InputSchema with
      | some _ => .error errToolSchemaConflict
      | none =>
          .ok { name := t.Name, description := t.Description, inputSchema := .raw raw }
  | none =>
      match t.InputSchema with
      | some s =>
          .ok { name := t.Name, description := t.Description, inputSchema := .dsl s }
      | none =>
          .ok { name := t.Name, description := t.Description,
                inputSchema := .dsl { type := "", properties := [] } }

/-- Whether an `Except` result is a success. -/
def exceptOk {ε α : Type} : Except ε α → Bool
  | .ok _ => true
  | .error _ => false

/-- C7: encoding a tool with both a DSL-populated input schema and a raw
JSON schema fails with the dedicated schema-conflict error; a tool with at
most one of the two populated encodes successfully. -/
theorem tool_schema_conflict (t : Tool) :
    (t.InputSchema.isSome = true → t.RawInputSchema.isSome = true →
      marshalTool t = .error errToolSchemaConflict)
    ∧ (t.RawInputSchema = none → exceptOk (marshalTool t) = true)
    ∧ (t.InputSchema = none → exceptOk (marshalTool t) = true) := by
  obtain ⟨nm, ds, is, rs⟩ := t
  refine ⟨?_, ?_, ?_⟩
  · intro h1 h2
    cases is with
    | none => simp at h1
    | some s =>
        cases rs with
        | none => simp at h2
        | some r => rfl
  · intro h
    simp only at h
    subst h
    cases is <;> rfl
  · intro h
    simp only at h
    subst h
    cases rs <;> rfl

/-- The dual-schema tool of `TestToolWithBothSchemasError`: a DSL-built
schema and a raw schema at the same time. -/
def dualSchemaTool : Tool where
  Name := "dual-schema-tool"
  Description := "A tool with both schemas set"
  InputSchema := some { type := "object", properties := [("input", "Test input")] }
  RawInputSchema := some "raw"

/-- The same tool before the raw schema was set: only the DSL schema. -/
def dslOnlyTool : Tool :=
  { dualSchemaTool with RawInputSchema := none }

/-- A tool with only a raw schema (`TestToolWithRawSchema`). -/
def rawOnlyTool : Tool where
  Name := "search-tool"
  Description := "Search API"
  InputSchema := none
  RawInputSchema := some "raw"

/-- Witness for C7: a tool with both schemas fails to encode with the
schema-conflict error; the same tool without the raw schema, and a tool
with only the raw schema, encode successfully. -/
theorem tool_schema_conflict_w :
    marshalTool dualSchemaTool = .error errToolSchemaConflict
    ∧ exceptOk (marshalTool dslOnlyTool) = true
    ∧ exceptOk (marshalTool rawOnlyTool) = true :=
  ⟨(tool_schema_conflict dualSchemaTool).1 (by decide) (by decide),
   (tool_schema_conflict dslOnlyTool).2.1 rfl,
   (tool_schema_conflict rawOnlyTool).2.2 rfl⟩

/-! ## The `Meta` codec (`mcp/types.go`)

The implementation file is absent from the source tree (only
`mcp/types_test.go` is present), so the codec is modelled from the spec:
"Any request's `params` may carry `_meta` — an object with an optional
`progressToken` (string or integer) and arbitrary extra fields. The codec
preserves unknown fields on round-trip"; "Empty `Meta\x7b\x7d` encodes as
`\x7b\x7d` (no spurious keys)".  A JSON object is represented as an
association list from keys to values. -/

/-- A JSON value. -/
inductive JsonValue where
  | null
  | boolean (b : Bool)
  | num (n : Int)
  | str (s : String)
  | arr (elems : List JsonValue)
  | obj (fields : List (String × JsonValue))

/-- `mcp.Meta`: an optional progress token (string or integer, absent when
`none`) plus arbitrary additional fields. -/
structure Meta where
  ProgressToken : Option JsonValue
  AdditionalFields : List (String × JsonValue)

/-- First value bound to a key in a JSON object. -/
def lookupJson (key : String) : List (String × JsonValue) → Option JsonValue
  | [] => none
  | (k, v) :: rest => if k = key then some v else lookupJson key rest

/-- Removal of a key from a JSON object. -/
def eraseJsonKey (key : String) : List (String × JsonValue) → List (String × JsonValue)
  | [] => []
  | (k, v) :: rest =>
      if k = key then eraseJsonKey key rest else (k, v) :: eraseJsonKey key rest

/-- Modelled from the spec: `Meta.MarshalJSON` (`mcp/types.go` is absent).
The progress token, when present, is emitted under the key
`progressToken` beside the additional fields; an empty `Meta` yields the
empty object. -/
def marshalMeta (m : Meta) : List (String × JsonValue) :=
  (match m.ProgressToken with
   | some t => [("progressToken", t)]
   | none => []) ++ m.AdditionalFields

/-- Modelled from the spec: `Meta.UnmarshalJSON` (`mcp/types.go` is absent).
The `progressToken` key is split out; every other field is kept as an
additional field. -/
def unmarshalMeta (fields : List (String × JsonValue)) : Meta :=
  { ProgressToken := lookupJson "progressToken" fields
    AdditionalFields := eraseJsonKey "progressToken" fields }

theorem lookupJson_not_mem (key : String) (l : List (String × JsonValue))
    (h : key ∉ l.map Prod.fst) : lookupJson key l = none := by
  induction l with
  | nil => rfl
  | cons hd tl ih =>
      obtain ⟨k, v⟩ := hd
      simp only [List.map_cons, List.mem_cons] at h
      push_neg at h
      simp [lookupJson, Ne.symm h.1, ih h.2]

theorem eraseJsonKey_not_mem (key : String) (l : List (String × JsonValue))
    (h : key ∉ l.map Prod.fst) : eraseJsonKey key l = l := by
  induction l with
  | nil => rfl
  | cons hd tl ih =>
      obtain ⟨k, v⟩ := hd
      simp only [List.map_cons, List.mem_cons] at h
      push_neg at h
      simp [eraseJsonKey, Ne.symm h.1, ih h.2]

/-- C8: the `Meta` codec round-trips: an empty `Meta` encodes as the empty
JSON object with no spurious keys; a `Meta` whose progress token is "123"
encodes to exactly the one-key object and decodes back; and any `Meta`
whose additional fields do not themselves use the `progressToken` key
survives an encode-then-decode round-trip unchanged. -/
theorem meta_roundtrip :
    marshalMeta { ProgressToken := none, AdditionalFields := [] } = []
    ∧ marshalMeta { ProgressToken := some (JsonValue.str "123"), AdditionalFields := [] }
        = [("progressToken", JsonValue.str "123")]
    ∧ unmarshalMeta [("progressToken", JsonValue.str "123")]
        = { ProgressToken := some (JsonValue.str "123"), AdditionalFields := [] }
    ∧ (∀ m : Meta, "progressToken" ∉ m.AdditionalFields.map Prod.fst →
        unmarshalMeta (marshalMeta m) = m) := by
  refine ⟨rfl, rfl, ?_, ?_⟩
  · simp [unmarshalMeta, lookupJson, eraseJsonKey]
  · intro m h
    obtain ⟨pt, af⟩ := m
    cases pt with
    | none =>
        simp only [marshalMeta, List.nil_append, unmarshalMeta]
        rw [lookupJson_not_mem _ _ h, eraseJsonKey_not_mem _ _ h]
    | some t =>
        simp only [marshalMeta, List.cons_append, List.nil_append, unmarshalMeta]
        rw [show lookupJson "progressToken" (("progressToken", t) :: af) = some t by
          simp [lookupJson]]
        rw [show eraseJsonKey "progressToken" (("progressToken", t) :: af)
            = eraseJsonKey "progressToken" af by simp [eraseJsonKey]]
        rw [eraseJsonKey_not_mem _ _ h]

/-- A `Meta` with a progress token and two additional fields, as in
`TestMetaMarshalling`. -/
def metaSample : Meta where
  ProgressToken := some (JsonValue.str "123")
  AdditionalFields := [("a", JsonValue.num 2), ("b", JsonValue.str "1")]

/-- Witness for C8: the sample `Meta` with progress token "123" and
additional fields a and b survives the round-trip unchanged. -/
theorem meta_roundtrip_w : unmarshalMeta (marshalMeta metaSample) = metaSample :=
  meta_roundtrip.2.2.2 metaSample (by decide)
